import Mathlib

/-!
# node-report trigger module (`src/node_report_module.cc`)

A shallow embedding of the trigger-and-hand-off engine of the node-report
module: the JavaScript entry points `TriggerReport`, `SetEvents`, `SetSignal`,
the V8 callbacks `OnFatalError` and `OnUncaughtException`, the raw signal
handler `SignalDump`, the two consumer callbacks, the watchdog loop
`ReportSignalThreadMain`, `SetupSignalHandler` and `InitializeNodeReport`.

The file-level mutable globals of the C++ source become the fields of `State`.
Calls into collaborators that live outside this file (the report generator,
V8, libuv, stdio, `raise`) are recorded, in program order, in `State.trace`.
The operating system's per-signal disposition table is the field `sigtable`;
`sigaction` stores the new action and hands back the old one for a signal
number whose disposition can be changed; for any other number (`SIGKILL`,
`SIGSTOP`, an invalid number) it fails and changes nothing, and the source
goes on without looking at the result.

Header constants and helper functions that are declared in `node_report.h`
(not part of this file) are parameters, collected in `Env`.
-/

namespace nodereport

/-! ## Data model -/

/-- The trigger kinds passed to the report generator (`DumpEvent`). -/
inductive DumpEvent
  | kException
  | kFatalError
  | kSignal_JS
  | kSignal_UV
  | kJavaScript
  deriving DecidableEq, Repr

/-- The JavaScript values a caller can pass, as far as this module inspects
them: `IsString()` and `IsNativeError()` are the only tests applied. -/
inductive JsValue
  | undefined
  | string (s : String)
  | nativeError (id : Nat)
  | other (id : Nat)
  deriving DecidableEq, Repr

/-- The test `IsNativeError()` of a JavaScript value. -/
def JsValue.IsNativeError : JsValue → Bool
  | .nativeError _ => true
  | _ => false

/-- What `sa_handler` of a `struct sigaction` can hold: the two system
dispositions, this module's handler `SignalDump`, or some other component's
handler function. -/
inductive Handler
  | SIG_DFL
  | SIG_IGN
  | SignalDump
  | user (id : Nat)
  deriving DecidableEq, Repr

/-- A signal set (`sigset_t`): the zeroed set left by `memset`, the set made by
`sigfillset`, or any other set given by its bits. -/
inductive SigSet
  | zeroed
  | filled
  | bits (n : Nat)
  deriving DecidableEq, Repr

/-- The `struct sigaction` fields. -/
structure Sigaction where
  sa_handler : Handler
  sa_mask : SigSet
  sa_flags : Nat
  deriving DecidableEq, Repr

/-- A zero-initialised `struct sigaction` (static storage, or after `memset`);
the null handler is `SIG_DFL`. -/
def Sigaction.zero : Sigaction :=
  { sa_handler := .SIG_DFL, sa_mask := .zeroed, sa_flags := 0 }

/-- The arguments of one call of the external report generator
`TriggerNodeReport(isolate, event, message, location, name, error)`; a null
`location` or `name` pointer is `none`, an empty `MaybeLocal` is `none`. -/
structure ReportRequest where
  event : DumpEvent
  message : String
  location : Option String
  name : Option String
  error : Option JsValue
  deriving DecidableEq, Repr

/-- An argument of a `fprintf` call. -/
inductive PrintArg
  | str (s : String)
  | int (i : Int)
  | hex (n : Nat)
  deriving DecidableEq, Repr

/-- The two stdio streams the module writes to. -/
inductive Stream
  | stdout
  | stderr
  deriving DecidableEq, Repr

/-- Calls that leave this file, in the order the program makes them. -/
inductive Effect
  | TriggerNodeReport (r : ReportRequest)
  | ThrowException (msg : String)
  | SetReturnValue (v : String)
  | fprintf (stream : Stream) (format : String) (args : List PrintArg)
  | fflush (stream : Stream)
  | raise (signo : Nat)
  | SetFatalErrorHandler
  | SetCaptureStackTraceForUncaughtExceptions
  | SetFlagsFromString (flags : String)
  | SetAbortOnUncaughtExceptionCallback
  | pthread_create
  | uv_async_init
  | uv_unref
  deriving DecidableEq, Repr

/-- Constants and helpers declared in `node_report.h` and the platform headers,
which this file uses but does not define: the event-mask bits, the filename
limit, two signal numbers, the option parsers, and the two functions whose
results flow back into this file (`node::signo_string`, `strerror`).
`reportName r` is the content of the caller's `name` buffer when the report
generator returns from the call `r`; `ProcessNodeReportFileName arg old` and
`ProcessNodeReportDirectory arg old` give the new configured string from the
argument and the old one. `catchable n` tells whether the system lets the
action of signal `n` be changed (on POSIX: a valid signal number other than
`SIGKILL` and `SIGSTOP`); `SIGUSR2` is such a signal on every platform. -/
structure Env where
  NR_APICALL : Nat
  NR_EXCEPTION : Nat
  NR_FATALERROR : Nat
  NR_SIGNAL : Nat
  NR_MAXNAME : Nat
  SIGUSR2 : Nat
  SIGABRT : Nat
  ProcessNodeReportEvents : String → Nat
  ProcessNodeReportSignal : String → Nat
  ProcessNodeReportVerboseSwitch : String → Nat
  ProcessNodeReportFileName : String → String → String
  ProcessNodeReportDirectory : String → String → String
  signo_string : Nat → String
  strerror : Int → String
  reportName : ReportRequest → String
  catchable : Nat → Bool
  SIGUSR2_catchable : catchable SIGUSR2 = true

/-- The file-level globals of the module, the two configuration strings kept by
the helpers `ProcessNodeReportFileName` / `ProcessNodeReportDirectory`, the
recorded command line, the OS signal-disposition table and the trace of
outgoing calls. -/
structure State where
  nodereport_events : Nat
  nodereport_verbose : Nat
  nodereport_signal : Nat
  report_signal : Nat
  report_semaphore : Nat
  saved_sa : Sigaction
  exception_hook_initialised : Bool
  error_hook_initialised : Bool
  signal_thread_initialised : Bool
  node_isolate : Option Nat
  report_filename : String
  report_directory : String
  commandline_string : String
  sigtable : Nat → Sigaction
  trace : List Effect

/-- The state at load time: the static initialisers of the source, over the
disposition table and command line the process currently has. -/
def State.initial (env : Env) (table : Nat → Sigaction) (cmdline : String) : State :=
  { nodereport_events := env.NR_APICALL
    nodereport_verbose := 0
    nodereport_signal := env.SIGUSR2
    report_signal := 0
    report_semaphore := 0
    saved_sa := Sigaction.zero
    exception_hook_initialised := false
    error_hook_initialised := false
    signal_thread_initialised := false
    node_isolate := none
    report_filename := ""
    report_directory := ""
    commandline_string := cmdline
    sigtable := table
    trace := [] }

/-- Record one outgoing call. -/
def State.emit (st : State) (e : Effect) : State :=
  { st with trace := st.trace ++ [e] }

/-- The value of `info[i]`: V8 yields `undefined` past the last argument. -/
def arg (info : List JsValue) (i : Nat) : JsValue :=
  info.getD i .undefined

/-- The C string seen through a `char*`: the bytes before the first NUL. -/
def c_str (s : String) : String :=
  String.mk (s.toList.takeWhile (fun c => c ≠ Char.ofNat 0))

/-- The test `mask & bit` of the source, as a condition. -/
def armed (mask bit : Nat) : Bool :=
  mask &&& bit != 0

/-! ## `TriggerReport` -/

/-- The function `TriggerReport` (source lines 60-95). -/
def TriggerReport (env : Env) (info : List JsValue) (st : State) : State :=
  let r : String × Nat × State :=
    match arg info 0 with
    | .string filename_parameter =>
      if filename_parameter.utf8ByteSize < env.NR_MAXNAME then
        (c_str filename_parameter, 1, st)
      else
        ("", 1, st.emit (.ThrowException "node-report: filename parameter is too long"))
    | _ => ("", 0, st)
  let filename := r.1
  let err_index := r.2.1
  let st1 := r.2.2
  let error : Option JsValue :=
    if (arg info err_index).IsNativeError then some (arg info err_index) else none
  if armed st1.nodereport_events env.NR_APICALL then
    let req : ReportRequest :=
      { event := .kJavaScript, message := "JavaScript API", location := some "TriggerReport",
        name := some filename, error := error }
    (st1.emit (.TriggerNodeReport req)).emit (.SetReturnValue (env.reportName req))
  else
    st1

/-! ## Fatal error and uncaught exception callbacks -/

/-- The function `OnFatalError` (source lines 196-213); a null `location` is
`none`. -/
def OnFatalError (env : Env) (location : Option String) (message : String)
    (st : State) : State :=
  let st1 :=
    match location with
    | some loc => st.emit (.fprintf .stderr "FATAL ERROR: %s %s\n" [.str loc, .str message])
    | none => st.emit (.fprintf .stderr "FATAL ERROR: %s\n" [.str message])
  let st2 :=
    if armed st1.nodereport_events env.NR_FATALERROR then
      st1.emit (.TriggerNodeReport
        { event := .kFatalError, message := message, location := location,
          name := none, error := none })
    else st1
  (st2.emit (.fflush .stderr)).emit (.raise env.SIGABRT)

/-- The search `haystack.find(needle)` of `std::string`: the first position at
which `needle` occurs, `none` standing for `npos`. -/
def find (haystack needle : List Char) : Option Nat :=
  match haystack with
  | [] => if needle.isEmpty then some 0 else none
  | c :: rest =>
    if needle.isPrefixOf (c :: rest) then some 0
    else (find rest needle).map (fun i => i + 1)

/-- The function `OnUncaughtException` (source lines 215-234): the new state
and the returned abort decision. -/
def OnUncaughtException (env : Env) (st : State) : State × Bool :=
  let st1 :=
    if armed st.nodereport_events env.NR_EXCEPTION then
      st.emit (.TriggerNodeReport
        { event := .kException, message := "exception",
          location := some "OnUncaughtException", name := none, error := none })
    else st
  if (find st1.commandline_string.toList "abort-on-uncaught-exception".toList != none) ||
     (find st1.commandline_string.toList "abort_on_uncaught_exception".toList != none) then
    (st1, true)
  else
    (st1, false)

/-! ## Signal callbacks -/

/-- The function `SignalDumpInterruptCallback` (source lines 269-289). -/
def SignalDumpInterruptCallback (env : Env) (st : State) : State :=
  if st.report_signal != 0 then
    let st1 :=
      if st.nodereport_verbose != 0 then
        st.emit (.fprintf .stdout
          "node-report: SignalDumpInterruptCallback handling signal\n" [])
      else st
    let st2 :=
      if armed st1.nodereport_events env.NR_SIGNAL then
        let st3 :=
          if st1.nodereport_verbose != 0 then
            st1.emit (.fprintf .stdout
              "node-report: SignalDumpInterruptCallback triggering report\n" [])
          else st1
        st3.emit (.TriggerNodeReport
          { event := .kSignal_JS, message := env.signo_string st3.report_signal,
            location := some "SignalDumpInterruptCallback", name := none, error := none })
      else st1
    { st2 with report_signal := 0 }
  else st

/-- The function `SignalDumpAsyncCallback` (source lines 290-310). -/
def SignalDumpAsyncCallback (env : Env) (st : State) : State :=
  if st.report_signal != 0 then
    let st1 :=
      if st.nodereport_verbose != 0 then
        st.emit (.fprintf .stdout
          "node-report: SignalDumpAsyncCallback handling signal\n" [])
      else st
    let st2 :=
      if armed st1.nodereport_events env.NR_SIGNAL then
        let st3 :=
          if st1.nodereport_verbose != 0 then
            st1.emit (.fprintf .stdout
              "node-report: SignalDumpAsyncCallback triggering NodeReport\n" [])
          else st1
        st3.emit (.TriggerNodeReport
          { event := .kSignal_UV, message := env.signo_string st3.report_signal,
            location := some "SignalDumpAsyncCallback", name := none, error := none })
      else st1
    { st2 with report_signal := 0 }
  else st

/-! ## Signal relay -/

/-- The system call `sigaction(signo, act, oldact)` with a new action `act`, as
this file calls it. For a signal whose action can be changed it succeeds:
the result holds the previous action of `signo` (what is written to `oldact`
when that pointer is given) and the table in which `act` is the action of
`signo`. For any other signal number it fails (`none`, the call returning -1
with `EINVAL`) and neither the table nor `oldact` is touched. -/
def sigaction (env : Env) (signo : Nat) (act : Sigaction) (table : Nat → Sigaction) :
    Option (Sigaction × (Nat → Sigaction)) :=
  if env.catchable signo then
    some (table signo, fun n => if n = signo then act else table n)
  else none

/-- The function `RegisterSignalHandler(signo, handler, &saved_sa)` (source lines
321-328): the new action has the handler, a filled mask and no flags; on
success the old action is stored in the global `saved_sa`. The result of
`sigaction` is not looked at. -/
def RegisterSignalHandler (env : Env) (signo : Nat) (handler : Handler) (st : State) :
    State :=
  let sa : Sigaction := { Sigaction.zero with sa_handler := handler, sa_mask := .filled }
  match sigaction env signo sa st.sigtable with
  | some r => { st with saved_sa := r.1, sigtable := r.2 }
  | none => st

/-- The function `RestoreSignalHandler(signo, &saved_sa)` (source lines 331-333);
the old action is not asked for, and the result of `sigaction` is not looked
at. -/
def RestoreSignalHandler (env : Env) (signo : Nat) (st : State) : State :=
  match sigaction env signo st.saved_sa st.sigtable with
  | some r => { st with sigtable := r.2 }
  | none => st

/-- The builtin `__sync_val_compare_and_swap(&report_signal, 0, signo)`: the
value found, and the state after the conditional store. -/
def sync_val_compare_and_swap (expected desired : Nat) (st : State) : Nat × State :=
  (st.report_signal,
   if st.report_signal = expected then { st with report_signal := desired } else st)

/-- The call `uv_sem_post(&report_semaphore)`. -/
def uv_sem_post (st : State) : State :=
  { st with report_semaphore := st.report_semaphore + 1 }

/-- The raw signal handler `SignalDump` (source lines 336-341). -/
def SignalDump (signo : Nat) (st : State) : State :=
  let r := sync_val_compare_and_swap 0 signo st
  if r.1 = 0 then uv_sem_post r.2 else r.2

/-- Results of the system and libuv calls made while the signal machinery is
set up; `0` is success. -/
structure SetupResults where
  uv_sem_init : Int
  uv_mutex_init : Int
  pthread_create : Int
  uv_async_init : Int

/-- The function `StartWatchdogThread` (source lines 344-368): the returned code
and the new state. The thread's signal mask is saved and put back around
`pthread_create`, which leaves no trace in the state. -/
def StartWatchdogThread (env : Env) (os : SetupResults) (st : State) : Int × State :=
  let err := os.pthread_create
  let st1 := st.emit .pthread_create
  if err != 0 then
    (-err,
     (st1.emit (.fprintf .stderr
        "node-report: StartWatchdogThread pthread_create() failed: %s\n"
        [.str (env.strerror err)])).emit (.fflush .stderr))
  else (0, st1)

/-- The function `SetupSignalHandler` (source lines 392-435). -/
def SetupSignalHandler (env : Env) (os : SetupResults) (st : State) : State :=
  let st1 :=
    if os.uv_sem_init != 0 then
      (st.emit (.fprintf .stderr
        "node-report: initialization failed, uv_sem_init() returned %d\n"
        [.int os.uv_sem_init])).emit
        (.ThrowException "node-report: initialization failed, uv_sem_init() returned error\n")
    else { st with report_semaphore := 0 }
  let st2 :=
    if os.uv_mutex_init != 0 then
      (st1.emit (.fprintf .stderr
        "node-report: initialization failed, uv_mutex_init() returned %d\n"
        [.int os.uv_mutex_init])).emit
        (.ThrowException "node-report: initialization failed, uv_mutex_init() returned error\n")
    else st1
  let w := StartWatchdogThread env os st2
  if w.1 = 0 then
    let st3 := w.2.emit .uv_async_init
    let st4 :=
      if os.uv_async_init != 0 then
        (st3.emit (.fprintf .stderr
          "node-report: initialization failed, uv_async_init() returned %d\n"
          [.int os.uv_async_init])).emit
          (.ThrowException "node-report: initialization failed, uv_async_init() returned error\n")
      else st3
    let st5 := st4.emit .uv_unref
    let st6 := RegisterSignalHandler env st5.nodereport_signal .SignalDump st5
    { st6 with signal_thread_initialised := true }
  else w.2

/-! ## Configuration API -/

/-- The function `SetEvents(isolate, args)` (source lines 125-163), on a
platform with signals. -/
def SetEvents (env : Env) (os : SetupResults) (args : String) (st : State) : State :=
  let previous_events := st.nodereport_events
  let st1 := { st with nodereport_events := env.ProcessNodeReportEvents args }
  let st2 :=
    if armed st1.nodereport_events env.NR_FATALERROR &&
        (st1.error_hook_initialised == false) then
      { st1.emit .SetFatalErrorHandler with error_hook_initialised := true }
    else st1
  let st3 :=
    if armed st2.nodereport_events env.NR_EXCEPTION &&
        (st2.exception_hook_initialised == false) then
      { (((st2.emit .SetCaptureStackTraceForUncaughtExceptions).emit
            (.SetFlagsFromString "--abort_on_uncaught_exception")).emit
            .SetAbortOnUncaughtExceptionCallback) with exception_hook_initialised := true }
    else st2
  let st4 :=
    if armed st3.nodereport_events env.NR_SIGNAL &&
        (st3.signal_thread_initialised == false) then
      SetupSignalHandler env os st3
    else st3
  if !(armed st4.nodereport_events env.NR_SIGNAL) && armed previous_events env.NR_SIGNAL then
    RestoreSignalHandler env st4.nodereport_signal st4
  else st4

/-- The function `SetSignal` (source lines 164-178), on a platform with
signals. -/
def SetSignal (env : Env) (parameter : String) (st : State) : State :=
  let previous_signal := st.nodereport_signal
  let st1 := { st with nodereport_signal := env.ProcessNodeReportSignal parameter }
  if armed st1.nodereport_events env.NR_SIGNAL &&
      (st1.nodereport_signal != previous_signal) then
    RegisterSignalHandler env st1.nodereport_signal .SignalDump
      (RestoreSignalHandler env previous_signal st1)
  else st1

/-- The function `SetFileName` (source lines 179-182). -/
def SetFileName (env : Env) (parameter : String) (st : State) : State :=
  { st with report_filename := env.ProcessNodeReportFileName parameter st.report_filename }

/-- The function `SetDirectory` (source lines 183-186). -/
def SetDirectory (env : Env) (parameter : String) (st : State) : State :=
  { st with report_directory := env.ProcessNodeReportDirectory parameter st.report_directory }

/-- The function `SetVerbose` (source lines 187-190). -/
def SetVerbose (env : Env) (parameter : String) (st : State) : State :=
  { st with nodereport_verbose := env.ProcessNodeReportVerboseSwitch parameter }

/-- What the process offers at start-up: its environment variables, its
command line (recorded by the helper `SetCommandLine`) and the current
isolate. -/
structure Process where
  secure_getenv : String → Option String
  commandline : String
  isolate : Nat

/-- The function `InitializeNodeReport` (source lines 442-471). -/
def InitializeNodeReport (env : Env) (os : SetupResults) (proc : Process) (st : State) :
    State :=
  let st0 := { st with node_isolate := some proc.isolate,
                       commandline_string := proc.commandline }
  let st1 :=
    match proc.secure_getenv "NODEREPORT_VERBOSE" with
    | some verbose_switch =>
      { st0 with nodereport_verbose := env.ProcessNodeReportVerboseSwitch verbose_switch }
    | none => st0
  let st2 :=
    match proc.secure_getenv "NODEREPORT_EVENTS" with
    | some trigger_events => SetEvents env os trigger_events st1
    | none => st1
  let st3 :=
    match proc.secure_getenv "NODEREPORT_SIGNAL" with
    | some trigger_signal =>
      { st2 with nodereport_signal := env.ProcessNodeReportSignal trigger_signal }
    | none => st2
  let st4 :=
    match proc.secure_getenv "NODEREPORT_FILENAME" with
    | some report_name =>
      { st3 with report_filename := env.ProcessNodeReportFileName report_name st3.report_filename }
    | none => st3
  match proc.secure_getenv "NODEREPORT_DIRECTORY" with
  | some directory_name =>
    { st4 with report_directory :=
        env.ProcessNodeReportDirectory directory_name st4.report_directory }
  | none => st4

/-! ## Observations on the trace -/

/-- The report-generator calls of a trace, in order. -/
def reports : List Effect → List ReportRequest
  | [] => []
  | .TriggerNodeReport r :: rest => r :: reports rest
  | _ :: rest => reports rest

/-- The exceptions thrown into the script engine, in order. -/
def thrown : List Effect → List String
  | [] => []
  | .ThrowException m :: rest => m :: thrown rest
  | _ :: rest => thrown rest

/-- The values stored as the call's return value, in order. -/
def returned : List Effect → List String
  | [] => []
  | .SetReturnValue v :: rest => v :: returned rest
  | _ :: rest => returned rest

/-- Deliver the signals of a list to the raw handler, one after the other. -/
def deliver (sigs : List Nat) (st : State) : State :=
  sigs.foldl (fun s signo => SignalDump signo s) st

/-! ## A concrete environment -/

/-- A concrete setting to run the definitions on: the flag values and name
limit of the node-report header, Linux signal numbers, and simple stand-ins
for the option parsers. -/
def sampleEnv : Env :=
  { NR_APICALL := 8
    NR_EXCEPTION := 1
    NR_FATALERROR := 2
    NR_SIGNAL := 4
    NR_MAXNAME := 64
    SIGUSR2 := 12
    SIGABRT := 6
    ProcessNodeReportEvents := fun args =>
      (if find args.toList "exception".toList != none then 1 else 0) |||
      (if find args.toList "fatalerror".toList != none then 2 else 0) |||
      (if find args.toList "signal".toList != none then 4 else 0) |||
      (if find args.toList "apicall".toList != none then 8 else 0)
    ProcessNodeReportSignal := fun args =>
      if args = "SIGUSR1" then 10 else if args = "SIGHUP" then 1 else 12
    ProcessNodeReportVerboseSwitch := fun args => if args = "yes" then 1 else 0
    ProcessNodeReportFileName := fun args _ => args
    ProcessNodeReportDirectory := fun args _ => args
    signo_string := fun n =>
      if n = 12 then "SIGUSR2" else if n = 10 then "SIGUSR1" else if n = 1 then "SIGHUP" else ""
    strerror := fun _ => "error"
    reportName := fun r => r.name.getD ""
    catchable := fun n => decide (0 < n) && decide (n < 65) && (n != 9) && (n != 19)
    SIGUSR2_catchable := by decide }

/-- Every set-up call succeeds. -/
def setupOk : SetupResults :=
  { uv_sem_init := 0, uv_mutex_init := 0, pthread_create := 0, uv_async_init := 0 }

/-- A disposition table in which every signal has the default action, except
signal 12, which carries another component's handler. -/
def sentinelTable : Nat → Sigaction :=
  fun n => if n = 12 then { sa_handler := .user 7, sa_mask := .bits 3, sa_flags := 1 }
           else Sigaction.zero

/-- A name of 65 bytes, one more than the limit of `sampleEnv`. -/
def longName : String :=
  String.mk (List.replicate 65 'a')

/-- A process environment that asks for the signal trigger on `SIGUSR1`. -/
def sampleProcess : Process :=
  { secure_getenv := fun k =>
      if k = "NODEREPORT_EVENTS" then some "signal"
      else if k = "NODEREPORT_SIGNAL" then some "SIGUSR1"
      else none
    commandline := "node app.js"
    isolate := 1 }

/-! ## The trigger paths, uniformly -/

/-- The five ways a report can be triggered, with the arguments of each. -/
inductive TriggerPath
  | api (info : List JsValue)
  | fatalError (location : Option String) (message : String)
  | exception
  | signalInterrupt
  | signalAsync

/-- The event-mask bit each trigger path tests. -/
def TriggerPath.bit (env : Env) : TriggerPath → Nat
  | .api _ => env.NR_APICALL
  | .fatalError _ _ => env.NR_FATALERROR
  | .exception => env.NR_EXCEPTION
  | .signalInterrupt => env.NR_SIGNAL
  | .signalAsync => env.NR_SIGNAL

/-- Run the function of a trigger path. -/
def TriggerPath.run (env : Env) : TriggerPath → State → State
  | .api info, st => TriggerReport env info st
  | .fatalError location message, st => OnFatalError env location message st
  | .exception, st => (OnUncaughtException env st).1
  | .signalInterrupt, st => SignalDumpInterruptCallback env st
  | .signalAsync, st => SignalDumpAsyncCallback env st

/-- The first argument of an API call is a string of `NR_MAXNAME` bytes or
more. -/
def nameTooLong (env : Env) (info : List JsValue) : Bool :=
  match arg info 0 with
  | .string p => !(decide (p.utf8ByteSize < env.NR_MAXNAME))
  | _ => false

/-- The trigger path is an API call whose filename argument is too long. -/
def TriggerPath.nameTooLong (env : Env) : TriggerPath → Bool
  | .api info => nodereport.nameTooLong env info
  | _ => false

/-! ## The signal-related part of the state -/

/-- The action `RegisterSignalHandler` installs for `SignalDump`. -/
def signalDumpAction : Sigaction :=
  { sa_handler := .SignalDump, sa_mask := .filled, sa_flags := 0 }

/-- The part of the state the signal set-up and tear-down act on. -/
structure SignalView where
  events : Nat
  signal : Nat
  saved : Sigaction
  initialised : Bool
  table : Nat → Sigaction

/-- Read the signal-related part of a state. -/
def State.view (st : State) : SignalView :=
  { events := st.nodereport_events, signal := st.nodereport_signal, saved := st.saved_sa,
    initialised := st.signal_thread_initialised, table := st.sigtable }

/-- What a call `RegisterSignalHandler(signo, SignalDump, &saved_sa)` does to
the signal-related part: nothing if the action of `signo` cannot be changed,
otherwise the old action is saved and `SignalDump` installed. -/
def SignalView.register (env : Env) (signo : Nat) (v : SignalView) : SignalView :=
  if env.catchable signo then
    { events := v.events, signal := v.signal, saved := v.table signo,
      initialised := v.initialised,
      table := fun n => if n = signo then signalDumpAction else v.table n }
  else v

/-- What a call `RestoreSignalHandler(signo, &saved_sa)` does to the
signal-related part: nothing if the action of `signo` cannot be changed,
otherwise the saved action is installed. -/
def SignalView.restore (env : Env) (signo : Nat) (v : SignalView) : SignalView :=
  if env.catchable signo then
    { events := v.events, signal := v.signal, saved := v.saved,
      initialised := v.initialised,
      table := fun n => if n = signo then v.saved else v.table n }
  else v

/-! ## Two states reached through the API -/

/-- The default state over `sentinelTable`, after the signal class was armed
once and disarmed again. -/
def armedThenDisarmed : State :=
  SetEvents sampleEnv setupOk "apicall"
    (SetEvents sampleEnv setupOk "signal" (State.initial sampleEnv sentinelTable ""))

/-- The state after start-up with `NODEREPORT_EVENTS=signal` and
`NODEREPORT_SIGNAL=SIGUSR1`, followed by the API call `setSignal("SIGUSR2")`:
the signal class is armed and `SignalDump` is installed on the configured
signal 12. -/
def switchedBack : State :=
  SetSignal sampleEnv "SIGUSR2"
    (InitializeNodeReport sampleEnv setupOk sampleProcess
      (State.initial sampleEnv sentinelTable ""))

/-! ## The signal hand-off state machine -/

/-- The module state together with what the runtime holds for the hand-off:
the interrupt requests queued in the isolate and not yet serviced, whether the
async handle has been signalled and its callback not yet run, and two counters
kept for bookkeeping only: the wakes the watchdog has consumed, and the times a
callback has reset an occupied pending slot. -/
structure HandOff where
  st : State
  interrupts : Nat
  async_sent : Bool
  consumed : Nat
  cleared : Nat

/-- The hand-off configuration over a module state, with nothing scheduled and
nothing counted yet. -/
def HandOff.start (st : State) : HandOff :=
  { st := st, interrupts := 0, async_sent := false, consumed := 0, cleared := 0 }

/-- The call `uv_sem_wait(&report_semaphore)`: it takes one unit, and cannot
proceed (`none`) while the count is zero. -/
def uv_sem_wait (st : State) : Option State :=
  if st.report_semaphore = 0 then none
  else some { st with report_semaphore := st.report_semaphore - 1 }

/-- One turn of the loop of `ReportSignalThreadMain` (source lines 372-387):
wait on the semaphore, log the pending signal when verbose, and, if the
isolate handle is set, request the interrupt callback and signal the async
handle. -/
def ReportSignalThreadMain (env : Env) (c : HandOff) : Option HandOff :=
  match uv_sem_wait c.st with
  | none => none
  | some st1 =>
    let st2 :=
      if st1.nodereport_verbose != 0 then
        st1.emit (.fprintf .stdout "node-report: signal %s received\n"
          [.str (env.signo_string st1.report_signal)])
      else st1
    match st2.node_isolate with
    | some _ =>
      some { c with st := st2, interrupts := c.interrupts + 1, async_sent := true,
                    consumed := c.consumed + 1 }
    | none => some { c with st := st2, consumed := c.consumed + 1 }

/-- The steps that interleave in the hand-off. -/
inductive HandOffStep
  | deliver (signo : Nat)
  | wake
  | safePoint
  | loopWake
  deriving DecidableEq, Repr

/-- The number of resets a callback run adds: one if it finds the slot
occupied. -/
def resets (st : State) : Nat :=
  if st.report_signal = 0 then 0 else 1

/-- One step of the hand-off; `none` when the step cannot be taken: the
watchdog is blocked on an empty semaphore, or the callback has not been
scheduled. The safe-point callback serves one queued interrupt request; the
loop-wake callback serves the signalled async handle. -/
def HandOff.step (env : Env) (c : HandOff) : HandOffStep → Option HandOff
  | .deliver signo => some { c with st := SignalDump signo c.st }
  | .wake => ReportSignalThreadMain env c
  | .safePoint =>
    if c.interrupts = 0 then none
    else some { c with st := SignalDumpInterruptCallback env c.st,
                       interrupts := c.interrupts - 1,
                       cleared := c.cleared + resets c.st }
  | .loopWake =>
    if c.async_sent = false then none
    else some { c with st := SignalDumpAsyncCallback env c.st,
                       async_sent := false,
                       cleared := c.cleared + resets c.st }

/-- Take the steps of a list one after the other. -/
def HandOff.run (env : Env) : List HandOffStep → HandOff → Option HandOff
  | [], c => some c
  | s :: rest, c =>
    match c.step env s with
    | none => none
    | some c1 => HandOff.run env rest c1

/-- The module state after start-up with `NODEREPORT_EVENTS=signal` and
`NODEREPORT_SIGNAL=SIGUSR1`: isolate handle set, slot empty, semaphore at 0. -/
def startedUp : State :=
  InitializeNodeReport sampleEnv setupOk sampleProcess
    (State.initial sampleEnv sentinelTable "")

/-- An interleaving in which the loop-wake callback scheduled for the first
signal runs after a second signal has been accepted and before the watchdog
has consumed the wake of that second signal. -/
def staleCallbackRun : List HandOffStep :=
  [.deliver 12, .wake, .safePoint, .deliver 12, .loopWake, .deliver 12]

/-- The configuration at the end of `staleCallbackRun` from `startedUp`. -/
def staleCallbackEnd : HandOff :=
  (HandOff.run sampleEnv staleCallbackRun (HandOff.start startedUp)).getD
    (HandOff.start startedUp)

/-! ## Basic facts about traces -/

theorem reports_append (xs ys : List Effect) :
    reports (xs ++ ys) = reports xs ++ reports ys := by
  induction xs with
  | nil => rfl
  | cons e rest ih => cases e <;> simp [reports, ih]

theorem thrown_append (xs ys : List Effect) :
    thrown (xs ++ ys) = thrown xs ++ thrown ys := by
  induction xs with
  | nil => rfl
  | cons e rest ih => cases e <;> simp [thrown, ih]

theorem returned_append (xs ys : List Effect) :
    returned (xs ++ ys) = returned xs ++ returned ys := by
  induction xs with
  | nil => rfl
  | cons e rest ih => cases e <;> simp [returned, ih]

@[simp] theorem emit_trace (st : State) (e : Effect) :
    (st.emit e).trace = st.trace ++ [e] := rfl

@[simp] theorem emit_nodereport_events (st : State) (e : Effect) :
    (st.emit e).nodereport_events = st.nodereport_events := rfl

@[simp] theorem emit_nodereport_verbose (st : State) (e : Effect) :
    (st.emit e).nodereport_verbose = st.nodereport_verbose := rfl

@[simp] theorem emit_report_signal (st : State) (e : Effect) :
    (st.emit e).report_signal = st.report_signal := rfl

@[simp] theorem emit_report_semaphore (st : State) (e : Effect) :
    (st.emit e).report_semaphore = st.report_semaphore := rfl

@[simp] theorem emit_commandline_string (st : State) (e : Effect) :
    (st.emit e).commandline_string = st.commandline_string := rfl

@[simp] theorem emit_sigtable (st : State) (e : Effect) :
    (st.emit e).sigtable = st.sigtable := rfl

@[simp] theorem emit_saved_sa (st : State) (e : Effect) :
    (st.emit e).saved_sa = st.saved_sa := rfl

@[simp] theorem emit_nodereport_signal (st : State) (e : Effect) :
    (st.emit e).nodereport_signal = st.nodereport_signal := rfl

@[simp] theorem emit_signal_thread_initialised (st : State) (e : Effect) :
    (st.emit e).signal_thread_initialised = st.signal_thread_initialised := rfl

@[simp] theorem emit_report_filename (st : State) (e : Effect) :
    (st.emit e).report_filename = st.report_filename := rfl

/-- The state left by `OnUncaughtException` does not depend on the abort
decision. -/
theorem OnUncaughtException_state (env : Env) (st : State) :
    (OnUncaughtException env st).1 =
      if armed st.nodereport_events env.NR_EXCEPTION then
        st.emit (.TriggerNodeReport
          { event := .kException, message := "exception",
            location := some "OnUncaughtException", name := none, error := none })
      else st := by
  unfold OnUncaughtException
  generalize (if armed st.nodereport_events env.NR_EXCEPTION = true then _ else st) = st1
  by_cases h : ((find st1.commandline_string.toList "abort-on-uncaught-exception".toList != none) ||
     (find st1.commandline_string.toList "abort_on_uncaught_exception".toList != none)) = true
  · rw [if_pos h]
  · rw [if_neg h]

/-! ## C1: a trigger class outside the mask -/

/-- C1, as stated, fails: after `SetEvents "fatalerror"` the API class is not in
the mask, yet `TriggerReport` with a 65-byte filename throws the exception
"filename parameter is too long". -/
theorem C1_unarmed_api_call_can_throw :
    armed (SetEvents sampleEnv setupOk "fatalerror"
        (State.initial sampleEnv sentinelTable "")).nodereport_events
      (TriggerPath.bit sampleEnv (.api [.string longName])) = false ∧
    thrown (SetEvents sampleEnv setupOk "fatalerror"
        (State.initial sampleEnv sentinelTable "")).trace = [] ∧
    thrown (TriggerPath.run sampleEnv (.api [.string longName])
        (SetEvents sampleEnv setupOk "fatalerror"
          (State.initial sampleEnv sentinelTable ""))).trace =
      ["node-report: filename parameter is too long"] := by
  decide

/-- C1 (amended): on every trigger path, when the event mask lacks the bit of
the path's class, the report generator is not called and no return value is
set; no exception is thrown either, except by `TriggerReport` when its filename
argument has `NR_MAXNAME` bytes or more, which throws whatever the mask. -/
theorem C1_unarmed_path_reports_nothing (env : Env) (path : TriggerPath) (st : State)
    (hmask : armed st.nodereport_events (path.bit env) = false) :
    reports (path.run env st).trace = reports st.trace ∧
    returned (path.run env st).trace = returned st.trace ∧
    (path.nameTooLong env = false → thrown (path.run env st).trace = thrown st.trace) ∧
    (path.nameTooLong env = true →
      thrown (path.run env st).trace =
        thrown st.trace ++ ["node-report: filename parameter is too long"]) := by
  cases path with
  | api info =>
    simp only [TriggerPath.bit] at hmask
    simp only [TriggerPath.run, TriggerPath.nameTooLong, nodereport.nameTooLong, TriggerReport]
    cases h0 : arg info 0 with
    | string p =>
      by_cases hp : p.utf8ByteSize < env.NR_MAXNAME
      · simp [hp, hmask]
      · simp [hp, hmask, reports_append, returned_append, thrown_append, reports, returned,
          thrown]
    | undefined => simp [hmask]
    | nativeError id => simp [hmask]
    | other id => simp [hmask]
  | fatalError location message =>
    simp only [TriggerPath.bit] at hmask
    cases location <;>
      simp [TriggerPath.run, TriggerPath.nameTooLong, OnFatalError, hmask, reports_append,
        returned_append, thrown_append, reports, returned, thrown]
  | exception =>
    simp only [TriggerPath.bit] at hmask
    simp [TriggerPath.run, TriggerPath.nameTooLong, OnUncaughtException_state, hmask]
  | signalInterrupt =>
    simp only [TriggerPath.bit] at hmask
    simp only [TriggerPath.run, TriggerPath.nameTooLong, SignalDumpInterruptCallback]
    by_cases hp : st.report_signal = 0
    · simp [hp]
    · by_cases hv : st.nodereport_verbose = 0 <;>
        simp [hp, hv, hmask, reports_append, returned_append, thrown_append, reports,
          returned, thrown]
  | signalAsync =>
    simp only [TriggerPath.bit] at hmask
    simp only [TriggerPath.run, TriggerPath.nameTooLong, SignalDumpAsyncCallback]
    by_cases hp : st.report_signal = 0
    · simp [hp]
    · by_cases hv : st.nodereport_verbose = 0 <;>
        simp [hp, hv, hmask, reports_append, returned_append, thrown_append, reports,
          returned, thrown]

/-- The amended C1 at a concrete input: the mask holds only the fatal-error
class and the API is called with an acceptable filename. -/
theorem C1_unarmed_path_reports_nothing_witness :
    armed (SetEvents sampleEnv setupOk "fatalerror"
        (State.initial sampleEnv sentinelTable "")).nodereport_events
      (TriggerPath.bit sampleEnv (.api [.string "out.txt"])) = false ∧
    reports (TriggerPath.run sampleEnv (.api [.string "out.txt"])
        (SetEvents sampleEnv setupOk "fatalerror"
          (State.initial sampleEnv sentinelTable ""))).trace =
      reports (SetEvents sampleEnv setupOk "fatalerror"
        (State.initial sampleEnv sentinelTable "")).trace :=
  ⟨by decide,
   (C1_unarmed_path_reports_nothing sampleEnv (.api [.string "out.txt"])
      (SetEvents sampleEnv setupOk "fatalerror" (State.initial sampleEnv sentinelTable ""))
      (by decide)).1⟩

/-! ## C2: a filename that is too long -/

/-- C2 at its failing input: in the default state (API class armed) a call of
`TriggerReport` with a 65-byte filename throws "filename parameter is too
long" and leaves the configured filename alone, but then goes on to call the
report generator with an empty name and to set a return value. -/
theorem C2_long_filename_still_reports :
    longName.utf8ByteSize = 65 ∧ sampleEnv.NR_MAXNAME = 64 ∧
    thrown (TriggerReport sampleEnv [.string longName]
        (State.initial sampleEnv sentinelTable "")).trace =
      ["node-report: filename parameter is too long"] ∧
    reports (TriggerReport sampleEnv [.string longName]
        (State.initial sampleEnv sentinelTable "")).trace =
      [{ event := .kJavaScript, message := "JavaScript API", location := some "TriggerReport",
         name := some "", error := none }] ∧
    returned (TriggerReport sampleEnv [.string longName]
        (State.initial sampleEnv sentinelTable "")).trace = [""] ∧
    (TriggerReport sampleEnv [.string longName]
        (State.initial sampleEnv sentinelTable "")).report_filename =
      (State.initial sampleEnv sentinelTable "").report_filename := by
  decide

/-! ## C3: the raw signal handler -/

/-- C3: for a signal number `signo` (positive) and any state, `SignalDump signo`
leaves the pending slot equal to `signo` if it was empty and unchanged
otherwise, posts one wake exactly when it made the slot go from empty to
occupied, and changes nothing else: every other global, the disposition table
and the trace of outgoing calls (so no report-generator call) stay as they
were. -/
theorem C3_SignalDump_sets_slot_once (signo : Nat) (st : State) (hsig : 0 < signo) :
    (SignalDump signo st).report_signal =
      (if st.report_signal = 0 then signo else st.report_signal) ∧
    (SignalDump signo st).report_semaphore =
      st.report_semaphore +
        (if st.report_signal = 0 ∧ (SignalDump signo st).report_signal ≠ 0 then 1 else 0) ∧
    SignalDump signo st =
      { st with report_signal := (SignalDump signo st).report_signal,
                report_semaphore := (SignalDump signo st).report_semaphore } ∧
    reports (SignalDump signo st).trace = reports st.trace := by
  have hne : signo ≠ 0 := Nat.pos_iff_ne_zero.mp hsig
  by_cases hp : st.report_signal = 0
  · simp [SignalDump, sync_val_compare_and_swap, uv_sem_post, hp, hne]
  · simp [SignalDump, sync_val_compare_and_swap, uv_sem_post, hp]

/-- C3 at a concrete input: `SIGUSR2` delivered in the default state. -/
theorem C3_SignalDump_sets_slot_once_witness :
    0 < 12 ∧
    (SignalDump 12 (State.initial sampleEnv sentinelTable "")).report_signal =
      (if (State.initial sampleEnv sentinelTable "").report_signal = 0 then 12
       else (State.initial sampleEnv sentinelTable "").report_signal) :=
  ⟨by decide,
   (C3_SignalDump_sets_slot_once 12 (State.initial sampleEnv sentinelTable "") (by decide)).1⟩

/-! ## Arming and disarming the signal class -/

/-- Recording an outgoing call leaves the signal-related part alone. -/
theorem view_emit (st : State) (e : Effect) : (st.emit e).view = st.view := rfl

/-- Equal views have equal fields. -/
theorem view_fields {a b : State} (h : a.view = b.view) :
    a.nodereport_events = b.nodereport_events ∧ a.nodereport_signal = b.nodereport_signal ∧
    a.saved_sa = b.saved_sa ∧ a.signal_thread_initialised = b.signal_thread_initialised ∧
    a.sigtable = b.sigtable :=
  ⟨congrArg SignalView.events h, congrArg SignalView.signal h, congrArg SignalView.saved h,
   congrArg SignalView.initialised h, congrArg SignalView.table h⟩

/-- The watchdog start touches only the trace, and reports success exactly when
`pthread_create` does. -/
theorem StartWatchdogThread_view (env : Env) (os : SetupResults) (st : State) :
    (StartWatchdogThread env os st).2.view = st.view ∧
    ((StartWatchdogThread env os st).1 = 0 ↔ os.pthread_create = 0) := by
  unfold StartWatchdogThread
  by_cases hok : os.pthread_create = 0
  · simp [hok, view_emit]
  · simp [hok, view_emit]

/-- Registering `SignalDump`, seen on the signal-related part. -/
theorem RegisterSignalHandler_view (env : Env) (signo : Nat) (st : State) :
    (RegisterSignalHandler env signo .SignalDump st).view = st.view.register env signo := by
  unfold RegisterSignalHandler SignalView.register sigaction
  by_cases hc : env.catchable signo = true
  · simp only [hc, if_true]
    rfl
  · simp only [hc]
    rfl

/-- Restoring the saved action, seen on the signal-related part. -/
theorem RestoreSignalHandler_view (env : Env) (signo : Nat) (st : State) :
    (RestoreSignalHandler env signo st).view = st.view.restore env signo := by
  unfold RestoreSignalHandler SignalView.restore sigaction
  by_cases hc : env.catchable signo = true
  · simp only [hc, if_true]
    rfl
  · simp only [hc]
    rfl

/-- On a signal whose action cannot be changed, `RegisterSignalHandler` and
`RestoreSignalHandler` leave the whole state as it was. -/
theorem uncatchable_signal_untouched (env : Env) (signo : Nat) (handler : Handler)
    (st : State) (h : env.catchable signo = false) :
    RegisterSignalHandler env signo handler st = st ∧
    RestoreSignalHandler env signo st = st := by
  simp [RegisterSignalHandler, RestoreSignalHandler, sigaction, h]

/-- Registering changes neither mask, configured signal nor set-up flag. -/
theorem register_frame (env : Env) (signo : Nat) (v : SignalView) :
    (v.register env signo).events = v.events ∧ (v.register env signo).signal = v.signal ∧
    (v.register env signo).initialised = v.initialised := by
  unfold SignalView.register
  split <;> exact ⟨rfl, rfl, rfl⟩

/-- The saved action after registering. -/
theorem register_saved (env : Env) (signo : Nat) (v : SignalView) :
    (v.register env signo).saved = if env.catchable signo then v.table signo else v.saved := by
  unfold SignalView.register
  split <;> rfl

/-- The table after registering. -/
theorem register_table (env : Env) (signo : Nat) (v : SignalView) :
    (v.register env signo).table =
      if env.catchable signo then fun n => if n = signo then signalDumpAction else v.table n
      else v.table := by
  unfold SignalView.register
  split <;> rfl

/-- The table after restoring. -/
theorem restore_table (env : Env) (signo : Nat) (v : SignalView) :
    (v.restore env signo).table =
      if env.catchable signo then fun n => if n = signo then v.saved else v.table n
      else v.table := by
  unfold SignalView.restore
  split <;> rfl

/-- Restoring changes neither mask, configured signal, saved action nor set-up
flag. -/
theorem restore_frame (env : Env) (signo : Nat) (v : SignalView) :
    (v.restore env signo).events = v.events ∧ (v.restore env signo).signal = v.signal ∧
    (v.restore env signo).saved = v.saved ∧
    (v.restore env signo).initialised = v.initialised := by
  unfold SignalView.restore
  split <;> exact ⟨rfl, rfl, rfl, rfl⟩

/-- What `SetupSignalHandler` does to the signal-related part of the state: the
handler is registered, and the flag set, exactly when the watchdog thread was
started. -/
theorem SetupSignalHandler_view (env : Env) (os : SetupResults) (st : State) :
    (SetupSignalHandler env os st).view =
      if os.pthread_create = 0 then
        { events := st.nodereport_events, signal := st.nodereport_signal,
          saved := (st.view.register env st.nodereport_signal).saved, initialised := true,
          table := (st.view.register env st.nodereport_signal).table }
      else st.view := by
  unfold SetupSignalHandler
  lift_lets
  intro st1 st2 w st3 st4 st5 st6
  have h1 : st1.view = st.view := by
    unfold st1
    split_ifs <;> rfl
  clear_value st1
  have h2 : st2.view = st.view := by
    unfold st2
    split_ifs
    · exact h1
    · exact h1
  clear_value st2
  have hw := StartWatchdogThread_view env os st2
  rw [h2] at hw
  change w.2.view = st.view ∧ (w.1 = 0 ↔ os.pthread_create = 0) at hw
  clear_value w
  have h4 : st4.view = st.view := by
    unfold st4
    split_ifs
    · exact hw.1
    · exact hw.1
  clear_value st4
  have h5 : st5.view = st.view := h4
  clear_value st5
  have e2 : st5.nodereport_signal = st.nodereport_signal := congrArg SignalView.signal h5
  have h6 : st6.view = st.view.register env st.nodereport_signal := by
    unfold st6
    rw [RegisterSignalHandler_view, h5, e2]
  clear_value st6
  obtain ⟨f1, f2, -⟩ := register_frame env st.nodereport_signal st.view
  by_cases hok : os.pthread_create = 0
  · rw [if_pos (hw.2.mpr hok), if_pos hok]
    show ({ events := st6.view.events, signal := st6.view.signal,
            saved := st6.view.saved, initialised := true,
            table := st6.view.table } : SignalView) = _
    rw [h6, f1, f2]
    rfl
  · rw [if_neg (fun h => hok (hw.2.mp h)), if_neg hok]
    exact hw.1

/-- What `SetEvents` does to the signal-related part of the state: arming from
a state that is not set up registers the handler (if the watchdog thread
starts), disarming restores the saved disposition on the configured signal,
and every other call leaves table and saved disposition alone. -/
theorem SetEvents_view (env : Env) (os : SetupResults) (args : String) (st : State) :
    (SetEvents env os args st).view =
      if armed (env.ProcessNodeReportEvents args) env.NR_SIGNAL then
        if st.signal_thread_initialised = false ∧ os.pthread_create = 0 then
          { events := env.ProcessNodeReportEvents args, signal := st.nodereport_signal,
            saved := (st.view.register env st.nodereport_signal).saved, initialised := true,
            table := (st.view.register env st.nodereport_signal).table }
        else
          { events := env.ProcessNodeReportEvents args, signal := st.nodereport_signal,
            saved := st.saved_sa, initialised := st.signal_thread_initialised,
            table := st.sigtable }
      else if armed st.nodereport_events env.NR_SIGNAL then
        { events := env.ProcessNodeReportEvents args, signal := st.nodereport_signal,
          saved := st.saved_sa, initialised := st.signal_thread_initialised,
          table := (st.view.restore env st.nodereport_signal).table }
      else
        { events := env.ProcessNodeReportEvents args, signal := st.nodereport_signal,
          saved := st.saved_sa, initialised := st.signal_thread_initialised,
          table := st.sigtable } := by
  unfold SetEvents
  lift_lets
  intro previous_events st1 src2 st2 src3 st3 st4
  have h1 : st1.view =
      { events := env.ProcessNodeReportEvents args, signal := st.nodereport_signal,
        saved := st.saved_sa, initialised := st.signal_thread_initialised,
        table := st.sigtable } := rfl
  clear_value st1
  have h2 : st2.view = st1.view := by
    unfold st2
    split_ifs <;> rfl
  clear_value st2
  have h3 : st3.view = st2.view := by
    unfold st3
    split_ifs <;> rfl
  clear_value st3
  rw [h2, h1] at h3
  have e1 : st3.nodereport_events = env.ProcessNodeReportEvents args :=
    congrArg SignalView.events h3
  have e2 : st3.nodereport_signal = st.nodereport_signal := congrArg SignalView.signal h3
  have e4 : st3.signal_thread_initialised = st.signal_thread_initialised :=
    congrArg SignalView.initialised h3
  have e3 : st3.view.saved = st.view.saved := (congrArg SignalView.saved h3 :)
  have e5 : st3.view.table = st.view.table := (congrArg SignalView.table h3 :)
  have hs : (st3.view.register env st.nodereport_signal).saved =
      (st.view.register env st.nodereport_signal).saved := by
    rw [register_saved, register_saved, e3, e5]
  have ht : (st3.view.register env st.nodereport_signal).table =
      (st.view.register env st.nodereport_signal).table := by
    rw [register_table, register_table, e5]
  have h4 : st4.view =
      if armed (env.ProcessNodeReportEvents args) env.NR_SIGNAL = true ∧
          st.signal_thread_initialised = false then
        (SetupSignalHandler env os st3).view
      else st3.view := by
    unfold st4
    rw [e1, e4]
    by_cases hc : armed (env.ProcessNodeReportEvents args) env.NR_SIGNAL = true ∧
        st.signal_thread_initialised = false
    · rw [if_pos hc, if_pos (by simp [hc.1, hc.2])]
    · rw [if_neg hc, if_neg (by simpa using hc)]
  clear_value st4
  rw [SetupSignalHandler_view, e1, e2, hs, ht, h3] at h4
  by_cases ha : armed (env.ProcessNodeReportEvents args) env.NR_SIGNAL = true
  · have hf : st4.nodereport_events = env.ProcessNodeReportEvents args := by
      have := congrArg SignalView.events h4
      refine Eq.trans this ?_
      split_ifs <;> rfl
    rw [if_pos ha, if_neg (by simp [hf, ha]), h4]
    by_cases hi : st.signal_thread_initialised = false
    · by_cases hok : os.pthread_create = 0
      · rw [if_pos ⟨ha, hi⟩, if_pos hok, if_pos ⟨hi, hok⟩]
      · rw [if_pos ⟨ha, hi⟩, if_neg hok, if_neg (fun h => hok h.2)]
    · rw [if_neg (fun h => hi h.2), if_neg (fun h => hi h.1)]
  · rw [if_neg ha]
    rw [if_neg (fun h => ha h.1)] at h4
    have g1 : st4.nodereport_events = env.ProcessNodeReportEvents args :=
      congrArg SignalView.events h4
    have g2 : st4.nodereport_signal = st.nodereport_signal := congrArg SignalView.signal h4
    have hna : armed st4.nodereport_events env.NR_SIGNAL = false := by
      rw [g1]; simpa using ha
    by_cases hp : armed st.nodereport_events env.NR_SIGNAL = true
    · rw [if_pos (by simp [hna, previous_events, hp]), if_pos hp, RestoreSignalHandler_view,
        g2, h4]
      unfold SignalView.restore
      by_cases hc : env.catchable st.nodereport_signal = true
      · simp only [hc, if_true]
        rfl
      · simp only [hc]
        rfl
    · rw [if_neg (by simp [hna, previous_events, hp]), if_neg hp]
      exact h4

/-! ## C4: arming the signal class installs the handler -/

/-- C4 at its failing input: from the default state, `SetEvents "signal"`
installs `SignalDump` on signal 12 and `SetEvents "apicall"` puts the sentinel
back; the state so reached has the signal class disarmed, and a further
`SetEvents "signal"` (every set-up call succeeding) arms the class in the mask
but leaves the sentinel, not `SignalDump`, as the handler of the configured
signal 12. -/
theorem C4_rearming_installs_no_handler :
    (SetEvents sampleEnv setupOk "signal"
        (State.initial sampleEnv sentinelTable "")).sigtable 12 = signalDumpAction ∧
    armed armedThenDisarmed.nodereport_events sampleEnv.NR_SIGNAL = false ∧
    armed (SetEvents sampleEnv setupOk "signal" armedThenDisarmed).nodereport_events
      sampleEnv.NR_SIGNAL = true ∧
    (SetEvents sampleEnv setupOk "signal" armedThenDisarmed).nodereport_signal = 12 ∧
    (SetEvents sampleEnv setupOk "signal" armedThenDisarmed).sigtable 12 = sentinelTable 12 ∧
    ((SetEvents sampleEnv setupOk "signal" armedThenDisarmed).sigtable 12).sa_handler ≠
      .SignalDump := by
  decide

/-! ## C5: arming then disarming restores the disposition -/

/-- C5: from a state in which the signal machinery has not been set up, over any
disposition table, `SetEvents` with a specification that includes the signal
class (the watchdog thread starting) installs `SignalDump` on the configured
signal (a signal whose action can be changed), and a following `SetEvents`
with a specification without the signal class leaves every signal, the
configured one included, with exactly the disposition it had at the start. -/
theorem C5_arm_disarm_restores_table (env : Env) (os os2 : SetupResults)
    (argsOn argsOff : String) (st : State)
    (hfresh : st.signal_thread_initialised = false)
    (hon : armed (env.ProcessNodeReportEvents argsOn) env.NR_SIGNAL = true)
    (hoff : armed (env.ProcessNodeReportEvents argsOff) env.NR_SIGNAL = false)
    (hok : os.pthread_create = 0) :
    (env.catchable st.nodereport_signal = true →
      (SetEvents env os argsOn st).sigtable st.nodereport_signal = signalDumpAction) ∧
    (SetEvents env os2 argsOff (SetEvents env os argsOn st)).sigtable st.nodereport_signal =
      st.sigtable st.nodereport_signal ∧
    ∀ n, (SetEvents env os2 argsOff (SetEvents env os argsOn st)).sigtable n =
      st.sigtable n := by
  have h1 := SetEvents_view env os argsOn st
  rw [if_pos hon, if_pos ⟨hfresh, hok⟩] at h1
  have a1 : (SetEvents env os argsOn st).nodereport_events = env.ProcessNodeReportEvents argsOn :=
    congrArg SignalView.events h1
  have a2 : (SetEvents env os argsOn st).nodereport_signal = st.nodereport_signal :=
    congrArg SignalView.signal h1
  have a5 : (SetEvents env os argsOn st).sigtable =
      (st.view.register env st.nodereport_signal).table := congrArg SignalView.table h1
  have h2 := SetEvents_view env os2 argsOff (SetEvents env os argsOn st)
  rw [if_neg (by simp [hoff]), if_pos (by rw [a1]; exact hon), a2, h1, restore_table] at h2
  have b5 : (SetEvents env os2 argsOff (SetEvents env os argsOn st)).sigtable =
      if env.catchable st.nodereport_signal then
        fun n => if n = st.nodereport_signal then
                   (st.view.register env st.nodereport_signal).saved
                 else (st.view.register env st.nodereport_signal).table n
      else (st.view.register env st.nodereport_signal).table :=
    congrArg SignalView.table h2
  have hall : ∀ n, (SetEvents env os2 argsOff (SetEvents env os argsOn st)).sigtable n =
      st.sigtable n := by
    intro n
    rw [b5, register_saved, register_table]
    by_cases hc : env.catchable st.nodereport_signal = true
    · simp only [hc, if_true]
      by_cases hn : n = st.nodereport_signal
      · rw [if_pos hn, hn]
        rfl
      · rw [if_neg hn, if_neg hn]
        rfl
    · simp only [hc]
      rfl
  refine ⟨?_, hall _, hall⟩
  intro hc
  rw [a5, register_table, if_pos hc]
  simp

/-- C5 at a concrete input: the default state over `sentinelTable`, armed with
"signal" and disarmed with "apicall". -/
theorem C5_arm_disarm_restores_table_witness :
    (State.initial sampleEnv sentinelTable "").signal_thread_initialised = false ∧
    armed (sampleEnv.ProcessNodeReportEvents "signal") sampleEnv.NR_SIGNAL = true ∧
    armed (sampleEnv.ProcessNodeReportEvents "apicall") sampleEnv.NR_SIGNAL = false ∧
    setupOk.pthread_create = 0 ∧
    (SetEvents sampleEnv setupOk "apicall"
      (SetEvents sampleEnv setupOk "signal"
        (State.initial sampleEnv sentinelTable ""))).sigtable 12 = sentinelTable 12 :=
  ⟨by decide, by decide, by decide, by decide,
   (C5_arm_disarm_restores_table sampleEnv setupOk setupOk "signal" "apicall"
      (State.initial sampleEnv sentinelTable "") (by decide) (by decide) (by decide)
      (by decide)).2.1⟩

/-! ## C6: changing the signal while armed -/

/-- C6 at its failing input. Start-up with `NODEREPORT_EVENTS=signal` and
`NODEREPORT_SIGNAL=SIGUSR1` over `sentinelTable` leaves `SignalDump` on signal
12, the configured signal at 10 and the sentinel of 12 as saved disposition.
`setSignal("SIGUSR2")` then writes that sentinel onto signal 10 and saves
`SignalDump` itself as the prior disposition of 12: in the state `switchedBack`
the signal class is armed with `SignalDump` installed on the configured signal
12. `SetSignal "SIGHUP"` (signal 1, different from 12) installs `SignalDump` on
signal 1 but leaves `SignalDump`, not the sentinel, on signal 12, so the old
signal still triggers a report. -/
theorem C6_switch_leaves_SignalDump_on_old :
    (InitializeNodeReport sampleEnv setupOk sampleProcess
      (State.initial sampleEnv sentinelTable "")).saved_sa = sentinelTable 12 ∧
    armed switchedBack.nodereport_events sampleEnv.NR_SIGNAL = true ∧
    switchedBack.nodereport_signal = 12 ∧
    (switchedBack.sigtable 12).sa_handler = .SignalDump ∧
    switchedBack.sigtable 10 = sentinelTable 12 ∧
    switchedBack.saved_sa = signalDumpAction ∧
    sampleEnv.ProcessNodeReportSignal "SIGHUP" = 1 ∧
    (sentinelTable 12).sa_handler = .user 7 ∧
    (SetSignal sampleEnv "SIGHUP" switchedBack).sigtable 1 = signalDumpAction ∧
    ((SetSignal sampleEnv "SIGHUP" switchedBack).sigtable 12).sa_handler = .SignalDump ∧
    (SetSignal sampleEnv "SIGHUP" switchedBack).sigtable 12 ≠ sentinelTable 12 := by
  decide

/-! ## C7: a burst of signals gives one report -/

/-- Once the pending slot is occupied, further deliveries change nothing. -/
theorem deliver_occupied (sigs : List Nat) (st : State) (h : st.report_signal ≠ 0) :
    deliver sigs st = st := by
  induction sigs generalizing st with
  | nil => rfl
  | cons s rest ih =>
    have hstep : SignalDump s st = st := by
      simp [SignalDump, sync_val_compare_and_swap, h]
    show deliver rest (SignalDump s st) = st
    rw [hstep]
    exact ih st h

/-- A burst delivered to an empty slot stores its first signal and posts one
wake. -/
theorem deliver_burst (first : Nat) (rest : List Nat) (st : State)
    (hempty : st.report_signal = 0) (hfirst : 0 < first) :
    deliver (first :: rest) st =
      { st with report_signal := first, report_semaphore := st.report_semaphore + 1 } := by
  have hne : first ≠ 0 := Nat.pos_iff_ne_zero.mp hfirst
  have hstep : SignalDump first st =
      { st with report_signal := first, report_semaphore := st.report_semaphore + 1 } := by
    simp [SignalDump, sync_val_compare_and_swap, uv_sem_post, hempty]
  show deliver rest (SignalDump first st) = _
  rw [hstep]
  exact deliver_occupied rest _ hne

/-- The safe-point callback on an empty slot does nothing. -/
theorem SignalDumpInterruptCallback_empty (env : Env) (st : State)
    (h : st.report_signal = 0) : SignalDumpInterruptCallback env st = st := by
  simp [SignalDumpInterruptCallback, h]

/-- The loop-wake callback on an empty slot does nothing. -/
theorem SignalDumpAsyncCallback_empty (env : Env) (st : State)
    (h : st.report_signal = 0) : SignalDumpAsyncCallback env st = st := by
  simp [SignalDumpAsyncCallback, h]

/-- The safe-point callback on an occupied slot, signal class armed: one report
naming the pending signal, and the slot is cleared. -/
theorem SignalDumpInterruptCallback_pending (env : Env) (st : State)
    (hp : st.report_signal ≠ 0) (ha : armed st.nodereport_events env.NR_SIGNAL = true) :
    (SignalDumpInterruptCallback env st).report_signal = 0 ∧
    (SignalDumpInterruptCallback env st).report_semaphore = st.report_semaphore ∧
    reports (SignalDumpInterruptCallback env st).trace =
      reports st.trace ++
        [{ event := .kSignal_JS, message := env.signo_string st.report_signal,
           location := some "SignalDumpInterruptCallback", name := none, error := none }] := by
  by_cases hv : st.nodereport_verbose = 0 <;>
    simp [SignalDumpInterruptCallback, hp, hv, ha, reports_append, reports]

/-- The loop-wake callback on an occupied slot, signal class armed: one report
naming the pending signal, and the slot is cleared. -/
theorem SignalDumpAsyncCallback_pending (env : Env) (st : State)
    (hp : st.report_signal ≠ 0) (ha : armed st.nodereport_events env.NR_SIGNAL = true) :
    (SignalDumpAsyncCallback env st).report_signal = 0 ∧
    (SignalDumpAsyncCallback env st).report_semaphore = st.report_semaphore ∧
    reports (SignalDumpAsyncCallback env st).trace =
      reports st.trace ++
        [{ event := .kSignal_UV, message := env.signo_string st.report_signal,
           location := some "SignalDumpAsyncCallback", name := none, error := none }] := by
  by_cases hv : st.nodereport_verbose = 0 <;>
    simp [SignalDumpAsyncCallback, hp, hv, ha, reports_append, reports]

/-- C7: with the signal class armed and the pending slot empty, a burst of one
or more signal deliveries (the first a positive signal number) posts exactly
one wake and generates no report by itself; when the safe-point callback and
the loop-wake callback then run, in either order, exactly one report is added
in total, it names the first delivered signal, the pending slot is empty
afterwards and the number of posted wakes is still one. -/
theorem C7_burst_gives_one_report (env : Env) (first : Nat) (rest : List Nat) (st : State)
    (harmed : armed st.nodereport_events env.NR_SIGNAL = true)
    (hempty : st.report_signal = 0) (hfirst : 0 < first) :
    (deliver (first :: rest) st).report_semaphore = st.report_semaphore + 1 ∧
    reports (deliver (first :: rest) st).trace = reports st.trace ∧
    (reports (SignalDumpAsyncCallback env
        (SignalDumpInterruptCallback env (deliver (first :: rest) st))).trace =
        reports st.trace ++
          [{ event := .kSignal_JS, message := env.signo_string first,
             location := some "SignalDumpInterruptCallback", name := none, error := none }] ∧
      (SignalDumpAsyncCallback env
        (SignalDumpInterruptCallback env (deliver (first :: rest) st))).report_signal = 0 ∧
      (SignalDumpAsyncCallback env
        (SignalDumpInterruptCallback env (deliver (first :: rest) st))).report_semaphore =
        st.report_semaphore + 1) ∧
    (reports (SignalDumpInterruptCallback env
        (SignalDumpAsyncCallback env (deliver (first :: rest) st))).trace =
        reports st.trace ++
          [{ event := .kSignal_UV, message := env.signo_string first,
             location := some "SignalDumpAsyncCallback", name := none, error := none }] ∧
      (SignalDumpInterruptCallback env
        (SignalDumpAsyncCallback env (deliver (first :: rest) st))).report_signal = 0 ∧
      (SignalDumpInterruptCallback env
        (SignalDumpAsyncCallback env (deliver (first :: rest) st))).report_semaphore =
        st.report_semaphore + 1) := by
  have hne : first ≠ 0 := Nat.pos_iff_ne_zero.mp hfirst
  rw [deliver_burst first rest st hempty hfirst]
  refine ⟨rfl, rfl, ?_, ?_⟩
  · obtain ⟨h1, h2, h3⟩ := SignalDumpInterruptCallback_pending env
      { st with report_signal := first, report_semaphore := st.report_semaphore + 1 } hne harmed
    rw [SignalDumpAsyncCallback_empty env _ h1]
    exact ⟨h3, h1, h2⟩
  · obtain ⟨h1, h2, h3⟩ := SignalDumpAsyncCallback_pending env
      { st with report_signal := first, report_semaphore := st.report_semaphore + 1 } hne harmed
    rw [SignalDumpInterruptCallback_empty env _ h1]
    exact ⟨h3, h1, h2⟩

/-- C7 at a concrete input: the default state over `sentinelTable` armed with
"signal", then the burst 12, 12, 10. -/
theorem C7_burst_gives_one_report_witness :
    armed (SetEvents sampleEnv setupOk "signal"
      (State.initial sampleEnv sentinelTable "")).nodereport_events sampleEnv.NR_SIGNAL = true ∧
    (SetEvents sampleEnv setupOk "signal"
      (State.initial sampleEnv sentinelTable "")).report_signal = 0 ∧
    0 < 12 ∧
    (deliver [12, 12, 10] (SetEvents sampleEnv setupOk "signal"
      (State.initial sampleEnv sentinelTable ""))).report_semaphore =
      (SetEvents sampleEnv setupOk "signal"
        (State.initial sampleEnv sentinelTable "")).report_semaphore + 1 :=
  ⟨by decide, by decide, by decide,
   (C7_burst_gives_one_report sampleEnv 12 [12, 10]
      (SetEvents sampleEnv setupOk "signal" (State.initial sampleEnv sentinelTable ""))
      (by decide) (by decide) (by decide)).1⟩

/-! ## C8: the fatal-error path always asks for termination -/

/-- C8: for every mask, location (null or not) and message, the calls made by
`OnFatalError` are, in order: one message on `stderr`, the report generator
with kind `kFatalError`, the given message and location if and only if the
fatal-error class is armed, a flush of `stderr`, and `raise(SIGABRT)` as the
last call. -/
theorem C8_OnFatalError_always_aborts (env : Env) (location : Option String)
    (message : String) (st : State) :
    (OnFatalError env location message st).trace.getLast? = some (.raise env.SIGABRT) ∧
    (∃ format args,
      (OnFatalError env location message st).trace =
        st.trace ++ [.fprintf .stderr format args] ++
          (if armed st.nodereport_events env.NR_FATALERROR then
            [.TriggerNodeReport
              { event := .kFatalError, message := message, location := location,
                name := none, error := none }]
           else []) ++
          [.fflush .stderr, .raise env.SIGABRT]) ∧
    reports (OnFatalError env location message st).trace =
      reports st.trace ++
        (if armed st.nodereport_events env.NR_FATALERROR then
          [{ event := .kFatalError, message := message, location := location,
             name := none, error := none }]
         else []) := by
  cases location with
  | none =>
    by_cases ha : armed st.nodereport_events env.NR_FATALERROR = true
    · exact ⟨by simp [OnFatalError, ha],
        ⟨"FATAL ERROR: %s\n", [.str message], by simp [OnFatalError, ha]⟩,
        by simp [OnFatalError, ha, reports_append, reports]⟩
    · exact ⟨by simp [OnFatalError, ha],
        ⟨"FATAL ERROR: %s\n", [.str message], by simp [OnFatalError, ha]⟩,
        by simp [OnFatalError, ha, reports_append, reports]⟩
  | some loc =>
    by_cases ha : armed st.nodereport_events env.NR_FATALERROR = true
    · exact ⟨by simp [OnFatalError, ha],
        ⟨"FATAL ERROR: %s %s\n", [.str loc, .str message], by simp [OnFatalError, ha]⟩,
        by simp [OnFatalError, ha, reports_append, reports]⟩
    · exact ⟨by simp [OnFatalError, ha],
        ⟨"FATAL ERROR: %s %s\n", [.str loc, .str message], by simp [OnFatalError, ha]⟩,
        by simp [OnFatalError, ha, reports_append, reports]⟩

/-! ## C9: abort decision and report decision -/

/-- One step of the search `find`. -/
theorem find_cons (c : Char) (rest needle : List Char) :
    find (c :: rest) needle =
      if needle.isPrefixOf (c :: rest) then some 0
      else (find rest needle).map (fun i => i + 1) := by
  rw [find]

/-- The search `find` succeeds exactly when the needle occurs in the haystack
as a block of consecutive characters. -/
theorem find_ne_none_iff (haystack needle : List Char) :
    find haystack needle ≠ none ↔ needle <:+: haystack := by
  induction haystack with
  | nil =>
    cases needle with
    | nil => simp [find]
    | cons c cs => simp [find]
  | cons c rest ih =>
    rw [List.infix_cons_iff, ← ih, find_cons]
    by_cases hp : needle.isPrefixOf (c :: rest) = true
    · have hpre : needle <+: c :: rest := List.isPrefixOf_iff_prefix.mp hp
      simp [hp, hpre]
    · have hpre : ¬ needle <+: c :: rest := fun h => hp (List.isPrefixOf_iff_prefix.mpr h)
      rw [if_neg hp]
      cases find rest needle <;> simp [hpre]

/-- The abort decision of `OnUncaughtException` as a test on the recorded
command line alone. -/
theorem OnUncaughtException_abort (env : Env) (st : State) :
    (OnUncaughtException env st).2 =
      ((find st.commandline_string.toList "abort-on-uncaught-exception".toList != none) ||
       (find st.commandline_string.toList "abort_on_uncaught_exception".toList != none)) := by
  have key : ∀ st1 : State, st1.commandline_string = st.commandline_string →
      (if ((find st1.commandline_string.toList "abort-on-uncaught-exception".toList != none) ||
           (find st1.commandline_string.toList "abort_on_uncaught_exception".toList != none))
            = true
        then (st1, true) else (st1, false)).2 =
      ((find st.commandline_string.toList "abort-on-uncaught-exception".toList != none) ||
       (find st.commandline_string.toList "abort_on_uncaught_exception".toList != none)) := by
    intro st1 h
    rw [h]
    by_cases hc : ((find st.commandline_string.toList
          "abort-on-uncaught-exception".toList != none) ||
        (find st.commandline_string.toList "abort_on_uncaught_exception".toList != none))
          = true
    · rw [if_pos hc, hc]
    · rw [if_neg hc]
      exact (Bool.eq_false_iff.mpr hc).symm
  unfold OnUncaughtException
  refine key _ ?_
  split_ifs <;> rfl

/-- C9: the abort decision returned by `OnUncaughtException` is the same under
any two event masks, and it is `true` exactly when the recorded command line
contains `abort-on-uncaught-exception` or `abort_on_uncaught_exception`; the
report generator is called (once, with kind `kException`) exactly when the
exception class is armed, and that is the same under any two command lines. -/
theorem C9_abort_and_report_independent (env : Env) (st : State) (mask : Nat)
    (cmdline : String) :
    (OnUncaughtException env { st with nodereport_events := mask }).2 =
      (OnUncaughtException env st).2 ∧
    ((OnUncaughtException env st).2 = true ↔
      ("abort-on-uncaught-exception".toList <:+: st.commandline_string.toList ∨
       "abort_on_uncaught_exception".toList <:+: st.commandline_string.toList)) ∧
    reports (OnUncaughtException env st).1.trace =
      reports st.trace ++
        (if armed st.nodereport_events env.NR_EXCEPTION then
          [{ event := .kException, message := "exception",
             location := some "OnUncaughtException", name := none, error := none }]
         else []) ∧
    reports (OnUncaughtException env { st with commandline_string := cmdline }).1.trace =
      reports (OnUncaughtException env st).1.trace := by
  refine ⟨?_, ?_, ?_, ?_⟩
  · rw [OnUncaughtException_abort, OnUncaughtException_abort]
  · rw [OnUncaughtException_abort, Bool.or_eq_true, bne_iff_ne, bne_iff_ne,
      find_ne_none_iff, find_ne_none_iff]
  · rw [OnUncaughtException_state]
    by_cases ha : armed st.nodereport_events env.NR_EXCEPTION = true
    · simp [ha, reports_append, reports]
    · simp [ha]
  · rw [OnUncaughtException_state, OnUncaughtException_state]
    by_cases ha : armed st.nodereport_events env.NR_EXCEPTION = true
    · simp [ha, reports_append, reports]
    · simp [ha]

/-! ## C10: initialisation order -/

/-- With both settings present in the environment, `InitializeNodeReport` acts
on the signal-related part of the state as `SetEvents` on the events setting,
followed by a plain store of the signal setting. -/
theorem InitializeNodeReport_view (env : Env) (os : SetupResults) (proc : Process)
    (st : State) (ev sg : String)
    (hev : proc.secure_getenv "NODEREPORT_EVENTS" = some ev)
    (hsg : proc.secure_getenv "NODEREPORT_SIGNAL" = some sg) :
    ∃ st1 : State, st1.view = st.view ∧
      (InitializeNodeReport env os proc st).view =
        { events := (SetEvents env os ev st1).nodereport_events,
          signal := env.ProcessNodeReportSignal sg,
          saved := (SetEvents env os ev st1).saved_sa,
          initialised := (SetEvents env os ev st1).signal_thread_initialised,
          table := (SetEvents env os ev st1).sigtable } := by
  unfold InitializeNodeReport
  lift_lets
  intro st0 st1 st2 st3 st4
  have h1 : st1.view = st.view := by
    unfold st1
    split <;> rfl
  refine ⟨st1, h1, ?_⟩
  have h2 : st2 = SetEvents env os ev st1 := by
    unfold st2
    rw [hev]
  have h3 : st3.view =
      { events := st2.nodereport_events, signal := env.ProcessNodeReportSignal sg,
        saved := st2.saved_sa, initialised := st2.signal_thread_initialised,
        table := st2.sigtable } := by
    unfold st3
    rw [hsg]
    rfl
  rw [h2] at h3
  clear_value st3
  have h4 : st4.view = st3.view := by
    unfold st4
    split <;> rfl
  clear_value st4
  rw [← h3, ← h4]
  split <;> rfl

/-- C10, as stated, fails: when `pthread_create` fails during start-up with
`NODEREPORT_EVENTS=signal` and `NODEREPORT_SIGNAL=SIGUSR1`, the configured
signal becomes 10 but `SignalDump` is not installed on the default signal 12,
which keeps the sentinel. -/
theorem C10_no_handler_when_watchdog_fails :
    sampleProcess.secure_getenv "NODEREPORT_EVENTS" = some "signal" ∧
    sampleProcess.secure_getenv "NODEREPORT_SIGNAL" = some "SIGUSR1" ∧
    sampleEnv.SIGUSR2 = 12 ∧
    (InitializeNodeReport sampleEnv { setupOk with pthread_create := 11 } sampleProcess
      (State.initial sampleEnv sentinelTable "")).nodereport_signal = 10 ∧
    (InitializeNodeReport sampleEnv { setupOk with pthread_create := 11 } sampleProcess
      (State.initial sampleEnv sentinelTable "")).sigtable 12 = sentinelTable 12 ∧
    ((InitializeNodeReport sampleEnv { setupOk with pthread_create := 11 } sampleProcess
      (State.initial sampleEnv sentinelTable "")).sigtable 12).sa_handler ≠ .SignalDump := by
  decide

/-- C10 (amended): when `InitializeNodeReport` runs from the default state with an events setting that includes the
signal class and a signal setting naming a signal `s` other than `SIGUSR2`
(`s` not carrying `SignalDump` beforehand), and the watchdog thread is
started, then afterwards the configured signal is
`s`, `SignalDump` is installed on `SIGUSR2`, and `s` keeps the disposition it
had, which is not `SignalDump`. -/
theorem C10_override_does_not_move_handler (env : Env) (os : SetupResults) (proc : Process)
    (table : Nat → Sigaction) (cmdline ev sg : String)
    (hev : proc.secure_getenv "NODEREPORT_EVENTS" = some ev)
    (hon : armed (env.ProcessNodeReportEvents ev) env.NR_SIGNAL = true)
    (hsg : proc.secure_getenv "NODEREPORT_SIGNAL" = some sg)
    (hne : env.ProcessNodeReportSignal sg ≠ env.SIGUSR2)
    (hclean : (table (env.ProcessNodeReportSignal sg)).sa_handler ≠ .SignalDump)
    (hok : os.pthread_create = 0) :
    (InitializeNodeReport env os proc (State.initial env table cmdline)).nodereport_signal =
      env.ProcessNodeReportSignal sg ∧
    (InitializeNodeReport env os proc (State.initial env table cmdline)).sigtable env.SIGUSR2 =
      signalDumpAction ∧
    (InitializeNodeReport env os proc (State.initial env table cmdline)).sigtable
      (env.ProcessNodeReportSignal sg) = table (env.ProcessNodeReportSignal sg) ∧
    ((InitializeNodeReport env os proc (State.initial env table cmdline)).sigtable
      (env.ProcessNodeReportSignal sg)).sa_handler ≠ .SignalDump := by
  obtain ⟨st1, h1, h⟩ :=
    InitializeNodeReport_view env os proc (State.initial env table cmdline) ev sg hev hsg
  have v := SetEvents_view env os ev st1
  have b2 : st1.nodereport_signal = env.SIGUSR2 := congrArg SignalView.signal h1
  have b4 : st1.signal_thread_initialised = false := congrArg SignalView.initialised h1
  have b5 : st1.view.table = table := (congrArg SignalView.table h1 :)
  rw [if_pos hon, if_pos ⟨b4, hok⟩, b2] at v
  have t : (SetEvents env os ev st1).sigtable =
      fun n => if n = env.SIGUSR2 then signalDumpAction else table n := by
    refine Eq.trans (congrArg SignalView.table v) ?_
    show (st1.view.register env env.SIGUSR2).table = _
    rw [register_table, if_pos env.SIGUSR2_catchable, b5]
  rw [t] at h
  have c2 : (InitializeNodeReport env os proc (State.initial env table cmdline)).nodereport_signal
      = env.ProcessNodeReportSignal sg := congrArg SignalView.signal h
  have c5 : (InitializeNodeReport env os proc (State.initial env table cmdline)).sigtable =
      fun n => if n = env.SIGUSR2 then signalDumpAction else table n :=
    congrArg SignalView.table h
  have hs : (InitializeNodeReport env os proc (State.initial env table cmdline)).sigtable
      (env.ProcessNodeReportSignal sg) = table (env.ProcessNodeReportSignal sg) := by
    rw [c5]
    simp [hne]
  refine ⟨c2, ?_, hs, ?_⟩
  · rw [c5]
    simp
  · rw [hs]
    exact hclean

/-- The amended C10 at a concrete input: start-up over `sentinelTable` with
`NODEREPORT_EVENTS=signal` and `NODEREPORT_SIGNAL=SIGUSR1`, every set-up call
succeeding. -/
theorem C10_override_does_not_move_handler_witness :
    sampleProcess.secure_getenv "NODEREPORT_EVENTS" = some "signal" ∧
    armed (sampleEnv.ProcessNodeReportEvents "signal") sampleEnv.NR_SIGNAL = true ∧
    sampleProcess.secure_getenv "NODEREPORT_SIGNAL" = some "SIGUSR1" ∧
    sampleEnv.ProcessNodeReportSignal "SIGUSR1" ≠ sampleEnv.SIGUSR2 ∧
    (sentinelTable (sampleEnv.ProcessNodeReportSignal "SIGUSR1")).sa_handler ≠ .SignalDump ∧
    setupOk.pthread_create = 0 ∧
    (InitializeNodeReport sampleEnv setupOk sampleProcess
      (State.initial sampleEnv sentinelTable "")).sigtable sampleEnv.SIGUSR2 =
        signalDumpAction :=
  ⟨by decide, by decide, by decide, by decide, by decide, by decide,
   (C10_override_does_not_move_handler sampleEnv setupOk sampleProcess sentinelTable ""
      "signal" "SIGUSR1" (by decide) (by decide) (by decide) (by decide) (by decide)
      (by decide)).2.1⟩

/-! ## C11: outstanding wakes -/

/-- The safe-point callback always leaves the pending slot empty and never
touches the semaphore. -/
theorem SignalDumpInterruptCallback_slot (env : Env) (st : State) :
    (SignalDumpInterruptCallback env st).report_signal = 0 ∧
    (SignalDumpInterruptCallback env st).report_semaphore = st.report_semaphore := by
  by_cases hp : st.report_signal = 0
  · rw [SignalDumpInterruptCallback_empty env st hp]
    exact ⟨hp, rfl⟩
  · by_cases hv : st.nodereport_verbose = 0 <;>
      by_cases ha : armed st.nodereport_events env.NR_SIGNAL = true <;>
      simp [SignalDumpInterruptCallback, hp, hv, ha]

/-- The loop-wake callback always leaves the pending slot empty and never
touches the semaphore. -/
theorem SignalDumpAsyncCallback_slot (env : Env) (st : State) :
    (SignalDumpAsyncCallback env st).report_signal = 0 ∧
    (SignalDumpAsyncCallback env st).report_semaphore = st.report_semaphore := by
  by_cases hp : st.report_signal = 0
  · rw [SignalDumpAsyncCallback_empty env st hp]
    exact ⟨hp, rfl⟩
  · by_cases hv : st.nodereport_verbose = 0 <;>
      by_cases ha : armed st.nodereport_events env.NR_SIGNAL = true <;>
      simp [SignalDumpAsyncCallback, hp, hv, ha]

/-- A turn of the watchdog loop that goes through found a unit on the
semaphore, took exactly that unit, and left the pending slot alone. -/
theorem ReportSignalThreadMain_counts (env : Env) (c c1 : HandOff)
    (h : ReportSignalThreadMain env c = some c1) :
    0 < c.st.report_semaphore ∧
    c1.st.report_semaphore = c.st.report_semaphore - 1 ∧
    c1.st.report_signal = c.st.report_signal ∧
    c1.consumed = c.consumed + 1 ∧ c1.cleared = c.cleared := by
  unfold ReportSignalThreadMain uv_sem_wait at h
  by_cases hz : c.st.report_semaphore = 0
  · simp [hz] at h
  · rw [if_neg hz] at h
    simp only [] at h
    have hpos : 0 < c.st.report_semaphore := Nat.pos_of_ne_zero hz
    split at h
    · cases h
      refine ⟨hpos, ?_, ?_, rfl, rfl⟩
      · show (if _ then _ else _ : State).report_semaphore = _
        split_ifs <;> rfl
      · show (if _ then _ else _ : State).report_signal = _
        split_ifs <;> rfl
    · cases h
      refine ⟨hpos, ?_, ?_, rfl, rfl⟩
      · show (if _ then _ else _ : State).report_semaphore = _
        split_ifs <;> rfl
      · show (if _ then _ else _ : State).report_signal = _
        split_ifs <;> rfl

/-- Each step keeps the balance: wakes posted so far (outstanding plus
consumed) equal the resets of the slot so far plus one if the slot is
occupied. -/
theorem step_keeps_balance (env : Env) (c c1 : HandOff) (s : HandOffStep)
    (hpos : ∀ n, s = .deliver n → 0 < n)
    (h : c.step env s = some c1)
    (hb : c.st.report_semaphore + c.consumed = c.cleared + resets c.st) :
    c1.st.report_semaphore + c1.consumed = c1.cleared + resets c1.st := by
  cases s with
  | deliver signo =>
    have hne : signo ≠ 0 := Nat.pos_iff_ne_zero.mp (hpos signo rfl)
    simp only [HandOff.step, Option.some.injEq] at h
    subst h
    by_cases hp : c.st.report_signal = 0
    · simp [resets, SignalDump, sync_val_compare_and_swap, uv_sem_post, hp, hne] at hb ⊢
      omega
    · simp [resets, SignalDump, sync_val_compare_and_swap, hp] at hb ⊢
      omega
  | wake =>
    obtain ⟨h0, h1, h2, h3, h4⟩ := ReportSignalThreadMain_counts env c c1 h
    unfold resets at hb ⊢
    rw [h1, h2, h3, h4]
    omega
  | safePoint =>
    simp only [HandOff.step] at h
    by_cases hi : c.interrupts = 0
    · simp [hi] at h
    · rw [if_neg hi, Option.some.injEq] at h
      subst h
      obtain ⟨k1, k2⟩ := SignalDumpInterruptCallback_slot env c.st
      show (SignalDumpInterruptCallback env c.st).report_semaphore + c.consumed =
        c.cleared + resets c.st + resets (SignalDumpInterruptCallback env c.st)
      rw [k2]
      unfold resets at hb ⊢
      rw [k1]
      simp only [if_true]
      omega
  | loopWake =>
    simp only [HandOff.step] at h
    by_cases hi : c.async_sent = false
    · simp [hi] at h
    · rw [if_neg hi, Option.some.injEq] at h
      subst h
      obtain ⟨k1, k2⟩ := SignalDumpAsyncCallback_slot env c.st
      show (SignalDumpAsyncCallback env c.st).report_semaphore + c.consumed =
        c.cleared + resets c.st + resets (SignalDumpAsyncCallback env c.st)
      rw [k2]
      unfold resets at hb ⊢
      rw [k1]
      simp only [if_true]
      omega

/-- A run keeps the balance. -/
theorem run_keeps_balance (env : Env) (steps : List HandOffStep) (c c1 : HandOff)
    (hpos : ∀ n, HandOffStep.deliver n ∈ steps → 0 < n)
    (h : HandOff.run env steps c = some c1)
    (hb : c.st.report_semaphore + c.consumed = c.cleared + resets c.st) :
    c1.st.report_semaphore + c1.consumed = c1.cleared + resets c1.st := by
  induction steps generalizing c with
  | nil =>
    simp only [HandOff.run, Option.some.injEq] at h
    subst h
    exact hb
  | cons s rest ih =>
    simp only [HandOff.run] at h
    cases hs : c.step env s with
    | none => simp [hs] at h
    | some c2 =>
      rw [hs] at h
      refine ih c2 (fun n hn => hpos n (List.mem_cons_of_mem _ hn)) h ?_
      exact step_keeps_balance env c c2 s
        (fun n hn => hpos n (by rw [hn]; exact List.mem_cons_self _ _)) hs hb

/-- C11, as stated, fails: from the state after start-up (pending slot empty,
semaphore at 0) the interleaving deliver, watchdog wake, safe-point callback,
deliver, loop-wake callback, deliver is possible, and at its end two posted
wakes are waiting on the semaphore. -/
theorem C11_two_wakes_outstanding :
    startedUp.report_signal = 0 ∧ startedUp.report_semaphore = 0 ∧
    staleCallbackRun =
      [.deliver 12, .wake, .safePoint, .deliver 12, .loopWake, .deliver 12] ∧
    (HandOff.run sampleEnv staleCallbackRun (HandOff.start startedUp)).map
      (fun c => c.st.report_semaphore) = some 2 := by
  decide

/-- C11 (amended): in every configuration reachable from a state with empty
pending slot and semaphore at 0 by any interleaving of signal deliveries
(positive signal numbers), watchdog wakes, safe-point callbacks and loop-wake
callbacks, the wakes posted so far (waiting plus consumed) equal the number of
times a callback has reset an occupied slot, plus one if the slot is occupied.
So the number of waiting wakes is at most one plus the resets not yet matched
by a consumed wake, and at most one whenever the watchdog has consumed at
least as many wakes as the callbacks have reset the slot. -/
theorem C11_posted_wakes_balance (env : Env) (steps : List HandOffStep) (st : State)
    (c : HandOff)
    (hslot : st.report_signal = 0) (hsem : st.report_semaphore = 0)
    (hpos : ∀ n, HandOffStep.deliver n ∈ steps → 0 < n)
    (hrun : HandOff.run env steps (HandOff.start st) = some c) :
    c.st.report_semaphore + c.consumed =
      c.cleared + (if c.st.report_signal = 0 then 0 else 1) ∧
    c.st.report_semaphore ≤ 1 + (c.cleared - c.consumed) ∧
    (c.cleared ≤ c.consumed → c.st.report_semaphore ≤ 1) := by
  have hb : (HandOff.start st).st.report_semaphore + (HandOff.start st).consumed =
      (HandOff.start st).cleared + resets (HandOff.start st).st := by
    simp [HandOff.start, resets, hslot, hsem]
  have h := run_keeps_balance env steps (HandOff.start st) c hpos hrun hb
  unfold resets at h
  refine ⟨h, ?_, ?_⟩
  · split_ifs at h <;> omega
  · intro hle
    split_ifs at h <;> omega

/-- The amended C11 at a concrete input: the run `staleCallbackRun` from the
state after start-up. -/
theorem C11_posted_wakes_balance_witness :
    startedUp.report_signal = 0 ∧ startedUp.report_semaphore = 0 ∧
    (∀ n, HandOffStep.deliver n ∈ staleCallbackRun → 0 < n) ∧
    HandOff.run sampleEnv staleCallbackRun (HandOff.start startedUp) =
      some staleCallbackEnd ∧
    staleCallbackEnd.st.report_semaphore ≤
      1 + (staleCallbackEnd.cleared - staleCallbackEnd.consumed) :=
  have hpos : ∀ n, HandOffStep.deliver n ∈ staleCallbackRun → 0 < n := by
    intro n hn
    simp [staleCallbackRun] at hn
    omega
  ⟨by decide, by decide, hpos, rfl,
   (C11_posted_wakes_balance sampleEnv staleCallbackRun startedUp staleCallbackEnd
      (by decide) (by decide) hpos rfl).2.1⟩

end nodereport
